import Mathlib

/-!
Verification of the workout-statistics program (`homework.py`).

The program computes distance, average speed and calories burned for three
workout variants (running, sports walking, swimming), dispatches on a
three-letter code, and renders a fixed-template summary line.

Embedding choices:
* Python floats are modelled by exact rationals `ℚ`; the specification's
  concrete scenarios carry a tolerance of `1e-3`, which absorbs the
  difference between binary floating point and exact arithmetic.
* Python division raises `ZeroDivisionError` on a zero divisor, so every
  division whose divisor is a runtime field goes through the guarded
  division `fdiv` (and `ffloordiv` for the float floor-division `//`),
  returning `Except String ℚ`.  Exception propagation through a method
  body is written as an explicit `match`.  Division by the literal
  constant `M_IN_KM = 1000` can never raise and stays plain `/`.
* Each Python class becomes a structure; the dynamically dispatched class
  attribute `LEN_STEP` appears as an explicit parameter of the base
  `Training.get_distance` formula so that the `Swimming` override can be
  compared against the inherited implementation.
-/

namespace Homework

/-- Guarded division modelling Python `/`: a zero divisor raises
`ZeroDivisionError`. -/
def fdiv (a b : ℚ) : Except String ℚ :=
  if b = 0 then .error "ZeroDivisionError" else .ok (a / b)

/-- Guarded floor division modelling Python `//` on floats: floor of the
quotient (toward negative infinity), `ZeroDivisionError` on a zero
divisor. -/
def ffloordiv (a b : ℚ) : Except String ℚ :=
  if b = 0 then .error "ZeroDivisionError" else .ok ((⌊a / b⌋ : ℤ) : ℚ)

/-- `Training.M_IN_KM = 1000` (meters per kilometre). -/
def M_IN_KM : ℚ := 1000

/-- `Training.MIN_IN_HOUR = 60` (minutes per hour). -/
def MIN_IN_HOUR : ℚ := 60

/-- `Training.LEN_STEP = 0.65` (base class attribute; kilometres are
obtained by dividing by `M_IN_KM`). -/
def Training.LEN_STEP : ℚ := 65 / 100

/-- Fields of the Python base class `Training`:
`action`, `duration` (hours), `weight` (kg). -/
structure Training where
  action : ℚ
  duration : ℚ
  weight : ℚ

/-- Base implementation `Training.get_distance`:
`action * LEN_STEP / M_IN_KM`.  `LEN_STEP` is read off the dynamic class
of `self`, so it is a parameter here. -/
def Training.get_distance (action len_step : ℚ) : ℚ :=
  action * len_step / M_IN_KM

/-- Base implementation `Training.get_mean_speed`:
`get_distance() / duration`. -/
def Training.get_mean_speed (action len_step duration : ℚ) :
    Except String ℚ :=
  fdiv (Training.get_distance action len_step) duration

/-- Python class `Running` adds no fields to `Training`. -/
structure Running where
  action : ℚ
  duration : ℚ
  weight : ℚ

/-- `Running.RUN_COEFF_1 = 18`. -/
def Running.RUN_COEFF_1 : ℚ := 18

/-- `Running.RUN_COEFF_2 = 20`. -/
def Running.RUN_COEFF_2 : ℚ := 20

/-- `Running` inherits `Training.get_distance` with `LEN_STEP = 0.65`. -/
def Running.get_distance (r : Running) : ℚ :=
  Training.get_distance r.action Training.LEN_STEP

/-- `Running` inherits `Training.get_mean_speed`. -/
def Running.get_mean_speed (r : Running) : Except String ℚ :=
  Training.get_mean_speed r.action Training.LEN_STEP r.duration

/-- `Running.get_spent_calories`:
`speed_and_coeff = (RUN_COEFF_1 * mean_speed - RUN_COEFF_2) * weight`,
result `speed_and_coeff / M_IN_KM * (duration * MIN_IN_HOUR)`. -/
def Running.get_spent_calories (r : Running) : Except String ℚ :=
  match r.get_mean_speed with
  | .error e => .error e
  | .ok ms =>
    let speed_and_coeff := (Running.RUN_COEFF_1 * ms
                             - Running.RUN_COEFF_2) * r.weight
    let duration_in_minutes := r.duration * MIN_IN_HOUR
    .ok (speed_and_coeff / M_IN_KM * duration_in_minutes)

/-- Python class `SportsWalking` adds the field `height`. -/
structure SportsWalking where
  action : ℚ
  duration : ℚ
  weight : ℚ
  height : ℚ

/-- `SportsWalking.WLK_COEFF_1 = 0.035`. -/
def SportsWalking.WLK_COEFF_1 : ℚ := 35 / 1000

/-- `SportsWalking.WLK_COEFF_2 = 0.029`. -/
def SportsWalking.WLK_COEFF_2 : ℚ := 29 / 1000

/-- `SportsWalking` inherits `Training.get_distance` with
`LEN_STEP = 0.65`. -/
def SportsWalking.get_distance (w : SportsWalking) : ℚ :=
  Training.get_distance w.action Training.LEN_STEP

/-- `SportsWalking` inherits `Training.get_mean_speed`. -/
def SportsWalking.get_mean_speed (w : SportsWalking) : Except String ℚ :=
  Training.get_mean_speed w.action Training.LEN_STEP w.duration

/-- `SportsWalking.get_spent_calories`:
`(WLK_COEFF_1 * weight + (mean_speed ** 2 // height) * WLK_COEFF_2 * weight)
  * (duration * MIN_IN_HOUR)`, with Python float floor-division `//`. -/
def SportsWalking.get_spent_calories (w : SportsWalking) :
    Except String ℚ :=
  match w.get_mean_speed with
  | .error e => .error e
  | .ok ms =>
    let weight_and_coeff_1 := SportsWalking.WLK_COEFF_1 * w.weight
    let weight_and_coeff_2 := SportsWalking.WLK_COEFF_2 * w.weight
    match ffloordiv (ms ^ 2) w.height with
    | .error e => .error e
    | .ok mean_speed_and_weight =>
      let duration_in_minutes := w.duration * MIN_IN_HOUR
      .ok ((weight_and_coeff_1 + mean_speed_and_weight
              * weight_and_coeff_2) * duration_in_minutes)

/-- Python class `Swimming` adds the fields `length_pool` and
`count_pool`. -/
structure Swimming where
  action : ℚ
  duration : ℚ
  weight : ℚ
  length_pool : ℚ
  count_pool : ℚ

/-- `Swimming.SWM_COEFF_1 = 1.1`. -/
def Swimming.SWM_COEFF_1 : ℚ := 11 / 10

/-- `Swimming.SWM_COEFF_2 = 2`. -/
def Swimming.SWM_COEFF_2 : ℚ := 2

/-- `Swimming.LEN_STEP = 1.38` (shadows the base class attribute). -/
def Swimming.LEN_STEP : ℚ := 138 / 100

/-- `Swimming.get_distance` override, from its own source lines:
`action * LEN_STEP / M_IN_KM` with the shadowed `LEN_STEP = 1.38`. -/
def Swimming.get_distance (s : Swimming) : ℚ :=
  s.action * Swimming.LEN_STEP / M_IN_KM

/-- `Swimming.get_mean_speed` override:
`(length_pool * count_pool / M_IN_KM) / duration`. -/
def Swimming.get_mean_speed (s : Swimming) : Except String ℚ :=
  let distance_in_meters := s.length_pool * s.count_pool
  let distance_in_km := distance_in_meters / M_IN_KM
  fdiv distance_in_km s.duration

/-- `Swimming.get_spent_calories`:
`(mean_speed + SWM_COEFF_1) * SWM_COEFF_2 * weight`. -/
def Swimming.get_spent_calories (s : Swimming) : Except String ℚ :=
  match s.get_mean_speed with
  | .error e => .error e
  | .ok ms =>
    let mean_speed_and_coeff := ms + Swimming.SWM_COEFF_1
    .ok (mean_speed_and_coeff * Swimming.SWM_COEFF_2 * s.weight)

/-- Fields of the Python dataclass `InfoMessage`: the fixed message
template is modelled inside `get_message`. -/
structure InfoMessage where
  training_type : String
  duration : ℚ
  distance : ℚ
  speed : ℚ
  calories : ℚ

/-- Left-pad a fractional part to exactly three digits. -/
def pad3 (k : ℕ) : String :=
  if k < 10 then "00" ++ Nat.repr k
  else if k < 100 then "0" ++ Nat.repr k
  else Nat.repr k

/-- Render a nonnegative number of thousandths as a fixed-point numeral
with three decimals. -/
def formatNat3 (m : ℕ) : String :=
  Nat.repr (m / 1000) ++ "." ++ pad3 (m % 1000)

/-- Three-decimal fixed-point formatting, modelling the Python format
specifier on these values: round the number of thousandths to the nearest
integer (Mathlib `round`, half away from the lower value; Python rounds
the underlying binary float half to even, which only differs on exact
binary ties) and print it with three decimals. -/
def formatFixed3 (q : ℚ) : String :=
  let n : ℤ := round (q * 1000)
  if n < 0 then "-" ++ formatNat3 n.natAbs else formatNat3 n.toNat

/-- `InfoMessage.get_message`: the fixed template
with three-decimal fixed-point substitution of the four numeric fields. -/
def InfoMessage.get_message (m : InfoMessage) : String :=
  "Тип тренировки: " ++ m.training_type ++
  "; Длительность: " ++ formatFixed3 m.duration ++
  " ч.; Дистанция: " ++ formatFixed3 m.distance ++
  " км; Ср. скорость: " ++ formatFixed3 m.speed ++
  " км/ч; Потрачено ккал: " ++ formatFixed3 m.calories ++ "."

/-- `Training.show_training_info` as inherited by `Swimming`:
`self.__class__.__name__` is `"Swimming"`, and the speed and calorie
computations may raise (speed is computed before calories in the
constructor call). -/
def Swimming.show_training_info (s : Swimming) : Except String InfoMessage :=
  match s.get_mean_speed with
  | .error e => .error e
  | .ok speed =>
    match s.get_spent_calories with
    | .error e => .error e
    | .ok cal => .ok ⟨"Swimming", s.duration, s.get_distance, speed, cal⟩

/-- The result of dispatch: one record of one of the three variants. -/
inductive TrainingRec where
  | running : Running → TrainingRec
  | walking : SportsWalking → TrainingRec
  | swimming : Swimming → TrainingRec

/-- `read_package`: look the code up in the dict
`SWM ↦ Swimming, RUN ↦ Running, WLK ↦ SportsWalking`; an absent code
raises `NotImplementedError` before any constructor runs; a present code
calls the constructor with the values spread positionally, and a
constructor-arity mismatch raises `TypeError`. -/
def read_package (workout_type : String) (data : List ℚ) :
    Except String TrainingRec :=
  if workout_type = "SWM" then
    match data with
    | [a, d, w, lp, cp] => .ok (.swimming ⟨a, d, w, lp, cp⟩)
    | _ => .error "TypeError"
  else if workout_type = "RUN" then
    match data with
    | [a, d, w] => .ok (.running ⟨a, d, w⟩)
    | _ => .error "TypeError"
  else if workout_type = "WLK" then
    match data with
    | [a, d, w, h] => .ok (.walking ⟨a, d, w, h⟩)
    | _ => .error "TypeError"
  else .error "NotImplementedError"

/-- C1 concrete record: `RUN, [15000, 1, 75]`. -/
def runC1 : Running := ⟨15000, 1, 75⟩

/-- C10 concrete record: a running record with all fields strictly
positive and mean speed below 20/18 km/h. -/
def runC10 : Running := ⟨100, 1, 75⟩

/-- C3 concrete record: `WLK, [9000, 1, 75, 180]`. -/
def wlkC3 : SportsWalking := ⟨9000, 1, 75, 180⟩

/-- C4/C6 concrete record: `SWM, [720, 1, 80, 25, 40]`. -/
def swmC4 : Swimming := ⟨720, 1, 80, 25, 40⟩

end Homework

/-- A guarded division with a nonzero divisor takes the non-error
branch. -/
theorem Homework.fdiv_of_ne (a b : ℚ) (h : b ≠ 0) :
    Homework.fdiv a b = .ok (a / b) := by
  unfold Homework.fdiv
  rw [if_neg h]

/-- A guarded floor division with a nonzero divisor takes the non-error
branch. -/
theorem Homework.ffloordiv_of_ne (a b : ℚ) (h : b ≠ 0) :
    Homework.ffloordiv a b = .ok ((⌊a / b⌋ : ℤ) : ℚ) := by
  unfold Homework.ffloordiv
  rw [if_neg h]

/-- C1 as stated is false at its own input: the code yields
`(18 * 9.75 - 20) * 75 / 1000 * (1 * 60) = 699.75` kcal for
`RUN, [15000, 1, 75]`, which is not within `1e-3` of the claimed
`707.625`. -/
theorem claim_C1_counterexample :
    ¬ (∃ c, Homework.runC1.get_spent_calories = .ok c ∧
        |c - 707625 / 1000| ≤ 1 / 1000) := by
  have hval : Homework.runC1.get_spent_calories = .ok (2799 / 4) := by
    norm_num [Homework.runC1, Homework.Running.get_mean_speed,
      Homework.Running.get_spent_calories, Homework.Training.get_distance,
      Homework.Training.get_mean_speed, Homework.fdiv, Homework.M_IN_KM,
      Homework.MIN_IN_HOUR, Homework.Training.LEN_STEP,
      Homework.Running.RUN_COEFF_1, Homework.Running.RUN_COEFF_2]
  rintro ⟨c, hc, hb⟩
  rw [hval] at hc
  obtain rfl : (2799 / 4 : ℚ) = c := by simpa using hc
  norm_num [abs_le] at hb

/-- C1 (amended): for input (code "RUN", values [15000, 1, 75]) the running
record has distance 9.75 km, mean speed 9.75 km/h and calories
699.75 kcal, each within tolerance 1e-3 (here exactly). -/
theorem claim_C1_running_scenario :
    |Homework.runC1.get_distance - 39 / 4| ≤ 1 / 1000 ∧
    (∃ s, Homework.runC1.get_mean_speed = .ok s ∧ |s - 39 / 4| ≤ 1 / 1000) ∧
    (∃ c, Homework.runC1.get_spent_calories = .ok c ∧
      |c - 2799 / 4| ≤ 1 / 1000) := by
  refine ⟨?_, ⟨39 / 4, ?_, ?_⟩, ⟨2799 / 4, ?_, ?_⟩⟩ <;>
    norm_num [Homework.runC1, Homework.Running.get_distance,
      Homework.Running.get_mean_speed, Homework.Running.get_spent_calories,
      Homework.Training.get_distance, Homework.Training.get_mean_speed,
      Homework.fdiv, Homework.M_IN_KM, Homework.MIN_IN_HOUR,
      Homework.Training.LEN_STEP, Homework.Running.RUN_COEFF_1,
      Homework.Running.RUN_COEFF_2]

/-- C2: for every running record with positive duration, the calories are
`((18 * speed) - 20) * weight / 1000 * (duration * 60)` with
`speed = action * 0.65 / 1000 / duration`. -/
theorem claim_C2_running_formula (r : Homework.Running)
    (h : 0 < r.duration) :
    ∃ s, r.get_mean_speed = .ok s ∧
      s = r.action * (65 / 100) / 1000 / r.duration ∧
      r.get_spent_calories =
        .ok ((18 * s - 20) * r.weight / 1000 * (r.duration * 60)) := by
  have hd : r.duration ≠ 0 := ne_of_gt h
  refine ⟨r.action * (65 / 100) / 1000 / r.duration, ?_, rfl, ?_⟩ <;>
    simp [Homework.Running.get_mean_speed, Homework.Running.get_spent_calories,
      Homework.Training.get_mean_speed, Homework.Training.get_distance,
      Homework.fdiv, hd, Homework.M_IN_KM, Homework.MIN_IN_HOUR,
      Homework.Training.LEN_STEP, Homework.Running.RUN_COEFF_1,
      Homework.Running.RUN_COEFF_2]

/-- Witness for C2 at the concrete record `RUN, [15000, 1, 75]`. -/
theorem claim_C2_running_formula_witness :
    0 < Homework.runC1.duration ∧
    (∃ s, Homework.runC1.get_mean_speed = .ok s ∧
      s = Homework.runC1.action * (65 / 100) / 1000 / Homework.runC1.duration ∧
      Homework.runC1.get_spent_calories =
        .ok ((18 * s - 20) * Homework.runC1.weight / 1000 *
          (Homework.runC1.duration * 60))) :=
  ⟨by norm_num [Homework.runC1],
   claim_C2_running_formula Homework.runC1 (by norm_num [Homework.runC1])⟩

/-- C3: for every walking record with positive duration and nonzero height,
the calories are
`(0.035 * weight + floor(speed^2 / height) * 0.029 * weight)
  * (duration * 60)`; in particular `WLK, [9000, 1, 75, 180]` yields
157.5 kcal within tolerance 1e-3. -/
theorem claim_C3_walking_formula :
    (∀ w : Homework.SportsWalking, 0 < w.duration → w.height ≠ 0 →
      ∃ s, w.get_mean_speed = .ok s ∧
        w.get_spent_calories =
          .ok ((35 / 1000 * w.weight +
            ((⌊s ^ 2 / w.height⌋ : ℤ) : ℚ) * (29 / 1000) * w.weight) *
            (w.duration * 60))) ∧
    (∃ c, Homework.wlkC3.get_spent_calories = .ok c ∧
      |c - 1575 / 10| ≤ 1 / 1000) := by
  constructor
  · intro w hdpos hh
    have hd : w.duration ≠ 0 := ne_of_gt hdpos
    have hs : w.get_mean_speed =
        .ok (Homework.Training.get_distance w.action
          Homework.Training.LEN_STEP / w.duration) := by
      simp only [Homework.SportsWalking.get_mean_speed,
        Homework.Training.get_mean_speed, Homework.fdiv_of_ne _ _ hd]
    refine ⟨Homework.Training.get_distance w.action Homework.Training.LEN_STEP
      / w.duration, hs, ?_⟩
    simp only [Homework.SportsWalking.get_spent_calories, hs,
      Homework.ffloordiv_of_ne _ _ hh, Except.ok.injEq,
      Homework.MIN_IN_HOUR, Homework.SportsWalking.WLK_COEFF_1,
      Homework.SportsWalking.WLK_COEFF_2]
    ring
  · refine ⟨315 / 2, ?_, ?_⟩
    · norm_num [Homework.wlkC3, Homework.SportsWalking.get_mean_speed,
        Homework.SportsWalking.get_spent_calories,
        Homework.Training.get_mean_speed, Homework.Training.get_distance,
        Homework.fdiv, Homework.ffloordiv, Homework.M_IN_KM,
        Homework.MIN_IN_HOUR, Homework.Training.LEN_STEP,
        Homework.SportsWalking.WLK_COEFF_1,
        Homework.SportsWalking.WLK_COEFF_2]
    · norm_num

/-- Witness for C3 at the concrete record `WLK, [9000, 1, 75, 180]`. -/
theorem claim_C3_walking_formula_witness :
    0 < Homework.wlkC3.duration ∧ Homework.wlkC3.height ≠ 0 ∧
    (∃ s, Homework.wlkC3.get_mean_speed = .ok s ∧
      Homework.wlkC3.get_spent_calories =
        .ok ((35 / 1000 * Homework.wlkC3.weight +
          ((⌊s ^ 2 / Homework.wlkC3.height⌋ : ℤ) : ℚ) * (29 / 1000) *
            Homework.wlkC3.weight) * (Homework.wlkC3.duration * 60))) :=
  ⟨by norm_num [Homework.wlkC3], by norm_num [Homework.wlkC3],
   claim_C3_walking_formula.1 Homework.wlkC3
     (by norm_num [Homework.wlkC3]) (by norm_num [Homework.wlkC3])⟩

/-- C4: for every swimming record with positive duration, the mean speed
is `(length_pool * count_pool / 1000) / duration` (pool geometry, not the
stroke-count distance); in particular `SWM, [720, 1, 80, 25, 40]` yields
speed 1.0 km/h and calories 336.0 kcal within tolerance 1e-3. -/
theorem claim_C4_swimming_speed :
    (∀ s : Homework.Swimming, 0 < s.duration →
      s.get_mean_speed =
        .ok ((s.length_pool * s.count_pool / 1000) / s.duration)) ∧
    (∃ v c, Homework.swmC4.get_mean_speed = .ok v ∧ |v - 1| ≤ 1 / 1000 ∧
      Homework.swmC4.get_spent_calories = .ok c ∧ |c - 336| ≤ 1 / 1000) := by
  constructor
  · intro s hdpos
    have hd : s.duration ≠ 0 := ne_of_gt hdpos
    simp [Homework.Swimming.get_mean_speed, Homework.fdiv, hd,
      Homework.M_IN_KM]
  · refine ⟨1, 336, ?_, by norm_num, ?_, by norm_num⟩ <;>
      norm_num [Homework.swmC4, Homework.Swimming.get_mean_speed,
        Homework.Swimming.get_spent_calories, Homework.fdiv,
        Homework.M_IN_KM, Homework.Swimming.SWM_COEFF_1,
        Homework.Swimming.SWM_COEFF_2]

/-- Witness for C4 at the concrete record `SWM, [720, 1, 80, 25, 40]`. -/
theorem claim_C4_swimming_speed_witness :
    0 < Homework.swmC4.duration ∧
    Homework.swmC4.get_mean_speed =
      .ok ((Homework.swmC4.length_pool * Homework.swmC4.count_pool / 1000) /
        Homework.swmC4.duration) :=
  ⟨by norm_num [Homework.swmC4],
   claim_C4_swimming_speed.1 Homework.swmC4 (by norm_num [Homework.swmC4])⟩

/-- C5: the `Swimming.get_distance` override returns exactly what the
inherited base implementation returns on the same record (the base formula
reads the shadowed `LEN_STEP = 1.38`): both equal
`action * 1.38 / 1000`. -/
theorem claim_C5_distance_override_redundant (s : Homework.Swimming) :
    s.get_distance =
      Homework.Training.get_distance s.action Homework.Swimming.LEN_STEP ∧
    s.get_distance = s.action * (138 / 100) / 1000 := by
  constructor
  · rfl
  · simp [Homework.Swimming.get_distance, Homework.Swimming.LEN_STEP,
      Homework.M_IN_KM]

/-- `formatFixed3` at a rational whose rounded thousandths count is the
natural number `n` prints `n` as a three-decimal fixed-point numeral. -/
theorem Homework.formatFixed3_of_round (q : ℚ) (n : ℕ)
    (h : round (q * 1000) = (n : ℤ)) :
    Homework.formatFixed3 q = Homework.formatNat3 n := by
  unfold Homework.formatFixed3
  rw [h, if_neg (not_lt.mpr (Int.natCast_nonneg n)), Int.toNat_natCast]

/-- C6: for input (code "SWM", values [720, 1, 80, 25, 40]) the rendered
summary is exactly the fixed Russian template with kind `Swimming` and
every float field in three-decimal fixed point (distance 0.9936 rounds
to 0.994). -/
theorem claim_C6_swimming_message :
    ∃ m, Homework.swmC4.show_training_info = .ok m ∧
      m.get_message = "Тип тренировки: Swimming; Длительность: 1.000 ч.; Дистанция: 0.994 км; Ср. скорость: 1.000 км/ч; Потрачено ккал: 336.000." := by
  have hm : Homework.swmC4.show_training_info =
      .ok ⟨"Swimming", 1, 621 / 625, 1, 336⟩ := by
    norm_num [Homework.swmC4, Homework.Swimming.show_training_info,
      Homework.Swimming.get_mean_speed, Homework.Swimming.get_spent_calories,
      Homework.Swimming.get_distance, Homework.fdiv, Homework.M_IN_KM,
      Homework.Swimming.SWM_COEFF_1, Homework.Swimming.SWM_COEFF_2,
      Homework.Swimming.LEN_STEP]
  refine ⟨_, hm, ?_⟩
  simp only [Homework.InfoMessage.get_message]
  rw [Homework.formatFixed3_of_round 1 1000
        (by rw [round_eq, Int.floor_eq_iff] ; norm_num),
      Homework.formatFixed3_of_round (621 / 625) 994
        (by rw [round_eq, Int.floor_eq_iff] ; norm_num),
      Homework.formatFixed3_of_round 336 336000
        (by rw [round_eq, Int.floor_eq_iff] ; norm_num)]
  rfl

/-- C7: an unknown code makes `read_package` fail with the
unsupported-type error before any record is constructed; each of the
three known codes dispatches to its variant, binding the values
positionally. -/
theorem claim_C7_dispatch :
    (∀ code data, code ≠ "SWM" → code ≠ "RUN" → code ≠ "WLK" →
      Homework.read_package code data = .error "NotImplementedError") ∧
    (∀ a d w, Homework.read_package "RUN" [a, d, w] =
      .ok (.running ⟨a, d, w⟩)) ∧
    (∀ a d w h, Homework.read_package "WLK" [a, d, w, h] =
      .ok (.walking ⟨a, d, w, h⟩)) ∧
    (∀ a d w lp cp, Homework.read_package "SWM" [a, d, w, lp, cp] =
      .ok (.swimming ⟨a, d, w, lp, cp⟩)) := by
  refine ⟨?_, fun a d w => rfl, fun a d w h => rfl,
    fun a d w lp cp => rfl⟩
  intro code data h1 h2 h3
  simp [Homework.read_package, h1, h2, h3]

/-- Witness for C7: the unknown code `"XYZ"` is rejected. -/
theorem claim_C7_dispatch_witness :
    ("XYZ" : String) ≠ "SWM" ∧ ("XYZ" : String) ≠ "RUN" ∧
    ("XYZ" : String) ≠ "WLK" ∧
    Homework.read_package "XYZ" [] = .error "NotImplementedError" :=
  ⟨by decide, by decide, by decide,
   claim_C7_dispatch.1 "XYZ" [] (by decide) (by decide) (by decide)⟩

/-- C8: zero duration makes `get_mean_speed` take the division-by-zero
error branch for every variant. -/
theorem claim_C8_zero_duration :
    (∀ r : Homework.Running, r.duration = 0 →
      r.get_mean_speed = .error "ZeroDivisionError") ∧
    (∀ w : Homework.SportsWalking, w.duration = 0 →
      w.get_mean_speed = .error "ZeroDivisionError") ∧
    (∀ s : Homework.Swimming, s.duration = 0 →
      s.get_mean_speed = .error "ZeroDivisionError") := by
  refine ⟨?_, ?_, ?_⟩ <;> intro x hx <;>
    simp [Homework.Running.get_mean_speed,
      Homework.SportsWalking.get_mean_speed,
      Homework.Swimming.get_mean_speed, Homework.Training.get_mean_speed,
      Homework.fdiv, hx]

/-- Witness for C8 at zero-duration records of each variant. -/
theorem claim_C8_zero_duration_witness :
    (Homework.Running.mk 1 0 1).duration = 0 ∧
    (Homework.SportsWalking.mk 1 0 1 1).duration = 0 ∧
    (Homework.Swimming.mk 1 0 1 1 1).duration = 0 ∧
    (Homework.Running.mk 1 0 1).get_mean_speed = .error "ZeroDivisionError" ∧
    (Homework.SportsWalking.mk 1 0 1 1).get_mean_speed =
      .error "ZeroDivisionError" ∧
    (Homework.Swimming.mk 1 0 1 1 1).get_mean_speed =
      .error "ZeroDivisionError" :=
  ⟨rfl, rfl, rfl,
   claim_C8_zero_duration.1 (Homework.Running.mk 1 0 1) rfl,
   claim_C8_zero_duration.2.1 (Homework.SportsWalking.mk 1 0 1 1) rfl,
   claim_C8_zero_duration.2.2 (Homework.Swimming.mk 1 0 1 1 1) rfl⟩

/-- C9: two swimming records agreeing on duration, weight, pool length
and lap count have equal mean speed and equal calories, whatever their
stroke counts. -/
theorem claim_C9_strokes_noninterference (s1 s2 : Homework.Swimming)
    (hd : s1.duration = s2.duration) (hw : s1.weight = s2.weight)
    (hl : s1.length_pool = s2.length_pool)
    (hc : s1.count_pool = s2.count_pool) :
    s1.get_mean_speed = s2.get_mean_speed ∧
    s1.get_spent_calories = s2.get_spent_calories := by
  have hs : s1.get_mean_speed = s2.get_mean_speed := by
    simp only [Homework.Swimming.get_mean_speed, hd, hw, hl, hc]
  exact ⟨hs, by simp only [Homework.Swimming.get_spent_calories, hs, hw]⟩

/-- Witness for C9: two records differing only in stroke count. -/
theorem claim_C9_strokes_noninterference_witness :
    (Homework.Swimming.mk 720 1 80 25 40).get_mean_speed =
      (Homework.Swimming.mk 999 1 80 25 40).get_mean_speed ∧
    (Homework.Swimming.mk 720 1 80 25 40).get_spent_calories =
      (Homework.Swimming.mk 999 1 80 25 40).get_spent_calories :=
  claim_C9_strokes_noninterference (Homework.Swimming.mk 720 1 80 25 40)
    (Homework.Swimming.mk 999 1 80 25 40) rfl rfl rfl rfl

/-- C10: the running record [100, 1, 75] has all fields strictly positive
and strictly negative calories: the formula is not clamped at zero. -/
theorem claim_C10_negative_calories :
    0 < Homework.runC10.action ∧ 0 < Homework.runC10.duration ∧
    0 < Homework.runC10.weight ∧
    ∃ c, Homework.runC10.get_spent_calories = .ok c ∧ c < 0 := by
  refine ⟨by norm_num [Homework.runC10], by norm_num [Homework.runC10],
    by norm_num [Homework.runC10], ⟨-16947 / 200, ?_, by norm_num⟩⟩
  norm_num [Homework.runC10, Homework.Running.get_mean_speed,
    Homework.Running.get_spent_calories, Homework.Training.get_mean_speed,
    Homework.Training.get_distance, Homework.fdiv, Homework.M_IN_KM,
    Homework.MIN_IN_HOUR, Homework.Training.LEN_STEP,
    Homework.Running.RUN_COEFF_1, Homework.Running.RUN_COEFF_2]
